import Mathlib

/-!
Verification development for the Comet browser MCP control plane
(connection manager, tab registry, completion detector).

The definitions below are a shallow embedding of the TypeScript sources:
DOM and network effects are replaced by explicit inputs (a list of CDP
targets, a record of boolean page signals, the result of each attempted
remote operation), while all decision logic — internal-tab
classification, registry merging, the completion state machine, the
stability counter, the retry wrapper, the health-check cache — is
translated statement by statement from the source.
-/

/-! ## String helpers (list-based models of the JS string primitives) -/

/-- Model of the JS needle-in-haystack test on character lists:
true when the first list occurs contiguously inside the second. -/
def hasSubList (needle : List Char) : List Char → Bool
  | [] => needle.isEmpty
  | c :: rest => needle.isPrefixOf (c :: rest) || hasSubList needle rest

/-- Model of JS hay.includes(pat). -/
def strHasSub (hay pat : String) : Bool :=
  hasSubList pat.toList hay.toList

/-- Model of JS s.startsWith(pre). -/
def strStarts (s pre : String) : Bool :=
  pre.toList.isPrefixOf s.toList

/-- Model of JS s.toLowerCase() for the ASCII signatures used here. -/
def lowerStr (s : String) : String :=
  String.mk (s.toList.map Char.toLower)

/-- Model of JS s.substring(0, n): the first n characters. -/
def strTake (s : String) (n : Nat) : String :=
  String.mk (s.toList.take n)

/-- Model of JS s.trim(): whitespace removed from both ends. -/
def strTrim (s : String) : String :=
  String.mk (((s.toList.dropWhile Char.isWhitespace).reverse.dropWhile Char.isWhitespace).reverse)

/-! ## Tab classification (cdp-client: isInternalTab, extractDomain, inferPurpose) -/

/-- Embeds CometCDPClient.isInternalTab: chrome, extension and devtools
schemes, the blank page, the empty URL, and every perplexity.ai URL are
internal. -/
def isInternalTab (url : String) : Bool :=
  strStarts url "chrome://" ||
  strStarts url "chrome-extension://" ||
  strStarts url "devtools://" ||
  url == "about:blank" ||
  url == "" ||
  strHasSub url "perplexity.ai"

/-- Characters that end the host portion of an http or https URL. -/
def hostChars (cs : List Char) : List Char :=
  cs.takeWhile (fun c => c != '/' && c != ':' && c != '?' && c != '#')

/-- Embeds CometCDPClient.extractDomain, which reads the hostname of
new URL(url) and falls back to unknown when parsing throws. Modelled for
plain http and https URLs without embedded credentials; anything else
takes the fallback branch. -/
def extractDomain (url : String) : String :=
  if strStarts url "https://" then String.mk (hostChars (url.toList.drop 8))
  else if strStarts url "http://" then String.mk (hostChars (url.toList.drop 7))
  else "unknown"

/-- The TabContext purpose union from types.ts. -/
inductive Purpose
  | main
  | agentBrowsing
  | dataRead
  | dataWrite
  | reference
  | unknown
deriving DecidableEq, Repr

/-- Embeds CometCDPClient.inferPurpose. The title parameter is accepted
and ignored, as in the source. -/
def inferPurpose (url : String) (_title : String) : Purpose :=
  if isInternalTab url then Purpose.unknown
  else if strHasSub url "perplexity.ai" then Purpose.main
  else Purpose.agentBrowsing

/-! ## Tab registry (cdp-client: refreshTabRegistry and queries) -/

/-- A CDP target as returned by listTargets. -/
structure Target where
  id : String
  type : String
  title : String
  url : String
deriving DecidableEq, Repr

/-- A registry entry, embedding the TabContext interface from types.ts. -/
structure TabContext where
  id : String
  url : String
  title : String
  purpose : Purpose
  domain : String
  lastActivity : Nat
  contentSummary : Option String
  taskId : Option String
deriving DecidableEq, Repr

/-- The entry created for a target not yet tracked by the registry. -/
def newEntry (now : Nat) (target : Target) : TabContext :=
  ⟨target.id, target.url, target.title, inferPurpose target.url target.title,
   extractDomain target.url, now, none, none⟩

/-- The in-place update applied to a tracked entry: every field except
purpose, contentSummary and taskId is overwritten from the target. -/
def updatedEntry (now : Nat) (target : Target) (existing : TabContext) : TabContext :=
  { existing with
    url := target.url,
    title := target.title,
    domain := extractDomain target.url,
    lastActivity := now }

/-- The comparison below reads the domain field of the already updated
entry, exactly as the source does after its sequence of field
assignments, so the re-inference branch never runs. -/
def refreshEntry (now : Nat) (target : Target) (existing : TabContext) : TabContext :=
  if (updatedEntry now target existing).domain ≠ extractDomain target.url then
    { updatedEntry now target existing with purpose := inferPurpose target.url target.title }
  else updatedEntry now target existing

/-- One iteration of the target loop in refreshTabRegistry: skip non-page
and internal targets, record the id as live, and update or insert the
registry entry. The pair carries the registry (in Map insertion order) and
the accumulated live-id set. -/
def refreshStep (now : Nat) (acc : List TabContext × List String) (target : Target) :
    List TabContext × List String :=
  if target.type = "page" ∧ isInternalTab target.url = false then
    match acc.1.find? (fun t => t.id == target.id) with
    | some existing =>
        (acc.1.map (fun t => if t.id == target.id then refreshEntry now target existing else t),
         acc.2 ++ [target.id])
    | none =>
        (acc.1 ++ [newEntry now target], acc.2 ++ [target.id])
  else acc

/-- Embeds CometCDPClient.refreshTabRegistry: process every listed target,
then evict registry entries whose id is no longer live. -/
def refreshTabRegistry (now : Nat) (targets : List Target) (reg : List TabContext) :
    List TabContext :=
  (targets.foldl (refreshStep now) (reg, [])).1.filter
    (fun t => decide (t.id ∈ (targets.foldl (refreshStep now) (reg, [])).2))

/-- A sequence of refresh calls, each with its own clock reading and
target listing, applied in order. -/
def refreshSeq : List (Nat × List Target) → List TabContext → List TabContext
  | [], reg => reg
  | step :: rest, reg => refreshSeq rest (refreshTabRegistry step.1 step.2 reg)

/-- Invariant carried through the target loop: every registry entry whose
id has been recorded as live was set from a non-internal target URL. -/
def regIdsInv (p : List TabContext × List String) : Prop :=
  ∀ t, t ∈ p.1 → t.id ∈ p.2 → isInternalTab t.url = false

/-- The bidirectional substring test used by findTabByDomain. -/
def domainMatch (tabDomain query : String) : Bool :=
  strHasSub tabDomain query || strHasSub query tabDomain

/-- The registry scan inside findTabByDomain: the first entry whose domain
is in substring relation with the query, in registry order. -/
def scanTabsByDomain (tabs : List TabContext) (domain : String) : Option TabContext :=
  tabs.find? (fun tab => domainMatch tab.domain domain)

/-- Embeds CometCDPClient.findTabByDomain: refresh the registry, then scan
it for the first domain match. -/
def findTabByDomain (now : Nat) (targets : List Target) (reg : List TabContext)
    (domain : String) : Option TabContext :=
  scanTabsByDomain (refreshTabRegistry now targets reg) domain

/-! ## comet_tabs close handler (index.ts, action close) -/

/-- Outcome of the close action: the text result, the error flag, and the
ids on which closeTab was invoked. -/
structure TabsCloseOutcome where
  text : String
  isError : Bool
  closed : List String
deriving DecidableEq, Repr

/-- Embeds the close branch of the comet_tabs tool handler. The
getTabContexts call is a refresh followed by reading the registry values;
the later findTabByDomain lookup re-reads the same world, modelled here by
scanning the same refreshed registry. closeOk is the result the transport
reports for closeTab. -/
def cometTabsClose (now : Nat) (targets : List Target) (reg : List TabContext)
    (tabId domain : Option String) (closeOk : Bool) : TabsCloseOutcome :=
  if (refreshTabRegistry now targets reg).length ≤ 1 then
    ⟨"Cannot close - this is the only browsing tab. Comet needs at least one external tab open.",
     true, []⟩
  else
    match tabId with
    | some id =>
        ⟨if closeOk then "Closed tab: " ++ id else "Failed to close tab", false, [id]⟩
    | none =>
        match domain with
        | some d =>
            match scanTabsByDomain (refreshTabRegistry now targets reg) d with
            | some tab =>
                if tab.purpose ≠ Purpose.main then
                  ⟨if closeOk then "Closed " ++ tab.domain else "Failed to close tab",
                   false, [tab.id]⟩
                else ⟨"Cannot close main Perplexity tab", true, []⟩
            | none => ⟨"No tab found for domain: " ++ d, true, []⟩
        | none => ⟨"Specify domain or tabId to close", true, []⟩

/-! ## Completion detector (comet-ai: getAgentStatus and stability tracking) -/

/-- The agent status union. -/
inductive AgentStatusKind
  | idle
  | working
  | completed
deriving DecidableEq, Repr

/-- The boolean signals one structured page read yields inside
getAgentStatus, plus the text the extraction strategies would produce.
Each field is one DOM or body-text probe of the source; the three
extraction strategies and the cleanup pipeline, which walk the DOM, are
abstracted into the single extractedCandidate field. -/
structure PageSignals where
  hasActiveStopButton : Bool
  hasLoadingSpinner : Bool
  bodyHasThinking : Bool
  bodyHasThinkingAbout : Bool
  bodyHasStepsCompleted : Bool
  bodyHasFinished : Bool
  bodyHasReviewedSources : Bool
  bodyHasAskFollowUp : Bool
  hasProseContent : Bool
  hasWorkingText : Bool
  extractedCandidate : String
deriving DecidableEq, Repr

/-- The status decision chain of getAgentStatus, in source order. The
derived markers hasThinkingIndicator and hasFinishedMarker are computed
exactly as in the page script. -/
def computeStatus (s : PageSignals) : AgentStatusKind :=
  let hasThinkingIndicator := s.bodyHasThinking && !s.bodyHasThinkingAbout
  let hasFinishedMarker := s.bodyHasFinished && !s.hasActiveStopButton
  if s.hasActiveStopButton then AgentStatusKind.working
  else if s.hasLoadingSpinner || hasThinkingIndicator then AgentStatusKind.working
  else if s.hasWorkingText && !s.bodyHasAskFollowUp then AgentStatusKind.working
  else if s.bodyHasStepsCompleted || hasFinishedMarker then AgentStatusKind.completed
  else if s.bodyHasReviewedSources && !s.hasWorkingText then AgentStatusKind.completed
  else if s.hasWorkingText then AgentStatusKind.working
  else if s.bodyHasAskFollowUp && s.hasProseContent && !s.hasActiveStopButton then
    AgentStatusKind.completed
  else AgentStatusKind.idle

/-- The response field one poll produces: the extraction pipeline runs only
when the status chain decided completed, and the result is capped at 8000
characters on return. -/
def pollResponse (s : PageSignals) : String :=
  if computeStatus s = AgentStatusKind.completed then strTake s.extractedCandidate 8000
  else ""

/-- The persistent stability-tracking fields of CometAI. -/
structure StabilityState where
  lastResponseText : String
  stableResponseCount : Nat
deriving DecidableEq, Repr

/-- STABILITY_THRESHOLD from comet-ai. -/
def STABILITY_THRESHOLD : Nat := 2

/-- The state resetStabilityTracking establishes, also the initial state. -/
def initialStability : StabilityState := ⟨"", 0⟩

/-- Embeds CometAI.isResponseStable: a non-empty response longer than 50
characters bumps the counter when unchanged or rebases it when changed,
and the call reports whether the counter reached the threshold; shorter
responses leave the state untouched and report false. -/
def isResponseStable (st : StabilityState) (currentResponse : String) :
    Bool × StabilityState :=
  if currentResponse ≠ "" ∧ 50 < currentResponse.length then
    let st' :=
      if currentResponse = st.lastResponseText then
        { st with stableResponseCount := st.stableResponseCount + 1 }
      else
        { lastResponseText := currentResponse, stableResponseCount := 0 }
    (decide (STABILITY_THRESHOLD ≤ st'.stableResponseCount), st')
  else (false, st)

/-- The override condition at the end of getAgentStatus: stable, response
longer than 50 characters, and no stop button. -/
def stabilityOverride (st : StabilityState) (s : PageSignals) : Bool :=
  (isResponseStable st (pollResponse s)).1 &&
    decide (50 < (pollResponse s).length) && !s.hasActiveStopButton

/-- The fields of the getAgentStatus result the specification speaks about.
The steps, currentStep and agentBrowsingUrl fields are not modelled. -/
structure AgentStatusResult where
  status : AgentStatusKind
  response : String
  hasStopButton : Bool
  isStable : Bool
deriving DecidableEq, Repr

/-- Embeds one CometAI.getAgentStatus poll: run the page read, feed the
response to the stability tracker, and override the status to completed
when the override condition holds. Returns the result together with the
updated stability state. -/
def getAgentStatus (st : StabilityState) (s : PageSignals) :
    AgentStatusResult × StabilityState :=
  (⟨if stabilityOverride st s then AgentStatusKind.completed else computeStatus s,
    pollResponse s, s.hasActiveStopButton, (isResponseStable st (pollResponse s)).1⟩,
   (isResponseStable st (pollResponse s)).2)

/-! ## Health-check cache (cdp-client: isConnectionHealthy) -/

/-- The health-related fields of the client: whether a CDP client object
exists, the time of the last cache write, and the cached boolean. -/
structure HealthState where
  hasClient : Bool
  lastHealthCheck : Nat
  healthCheckCache : Bool
deriving DecidableEq, Repr

/-- HEALTH_CHECK_CACHE_MS from cdp-client. -/
def HEALTH_CHECK_CACHE_MS : Nat := 2000

/-- The value a health check returns, the state it leaves behind, and the
number of remote Runtime.evaluate probes it issued. -/
structure HealthResult where
  value : Bool
  state : HealthState
  probes : Nat
deriving DecidableEq, Repr

/-- Embeds CometCDPClient.isConnectionHealthy: inside the cache window the
cached boolean is returned with no probe and, notably, without refreshing
the timestamp; otherwise a missing client stores and returns false without
probing, and an existing client issues one probe whose outcome probeOk is
stored and returned. -/
def isConnectionHealthy (now : Nat) (probeOk : Bool) (st : HealthState) : HealthResult :=
  if now - st.lastHealthCheck < HEALTH_CHECK_CACHE_MS then
    ⟨st.healthCheckCache, st, 0⟩
  else if st.hasClient = false then
    ⟨false, ⟨st.hasClient, now, false⟩, 0⟩
  else if probeOk = true then
    ⟨true, ⟨st.hasClient, now, true⟩, 1⟩
  else
    ⟨false, ⟨st.hasClient, now, false⟩, 1⟩

/-! ## Retry wrapper (cdp-client: withAutoReconnect) -/

/-- The transient-connection signatures from withAutoReconnect. -/
def connectionErrors : List String :=
  ["WebSocket", "CLOSED", "not open", "disconnected", "readyState",
   "ECONNREFUSED", "ECONNRESET", "ETIMEDOUT", "EPIPE", "socket hang up",
   "Protocol error", "Target closed", "Session closed", "Execution context",
   "not found", "detached", "crashed", "Inspected target navigated", "aborted"]

/-- The classification test: some signature occurs, case-insensitively,
inside the error message. -/
def isConnectionError (msg : String) : Bool :=
  connectionErrors.any (fun e => strHasSub (lowerStr msg) (lowerStr e))

/-- maxReconnectAttempts from cdp-client. -/
def maxReconnectAttempts : Nat := 10

/-- The observable events of one withAutoReconnect run: operation
invocations, reconnect calls, and the cold-start recovery attempt. -/
inductive RunEvent
  | opCall
  | reconnectCall
  | coldStartCall
deriving DecidableEq, Repr

/-- The environment one withAutoReconnect run executes against: the result
of each successive invocation of the wrapped operation, whether the
pre-operation health check passes without needing a reconnect, whether a
reconnect call succeeds (on success the embedded connect call resets the
attempt counter to zero), the message a failing reconnect raises, and
whether the cold-start recovery manages to relaunch, find a page and
connect. -/
structure RetryEnv (T : Type) where
  opResults : Nat → Except String T
  preCheckOk : Bool
  reconnectOk : Bool
  reconnectErrMsg : String
  coldStartOk : Bool

/-- A finished withAutoReconnect run: the returned or raised value, the
final reconnectAttempts counter, and the event trace. -/
structure RetryResult (T : Type) where
  outcome : Except String T
  attempts : Nat
  events : List RunEvent

/-- The attempt counter after the swallowed pre-operation check: untouched
when the check passes or when its reconnect fails before connecting, reset
to zero when its reconnect succeeds. -/
def preCheckAttempts {T : Type} (env : RetryEnv T) (attempts0 : Nat) : Nat :=
  if env.preCheckOk then attempts0
  else if env.reconnectOk then 0
  else attempts0

/-- The events the swallowed pre-operation check contributes. -/
def preCheckEvents {T : Type} (env : RetryEnv T) : List RunEvent :=
  if env.preCheckOk then [] else [RunEvent.reconnectCall]

/-- Embeds CometCDPClient.withAutoReconnect. The cooperative wait on the
reconnecting flag and the backoff delays only consume time and are not
modelled. A first success returns after zeroing the counter. A failure
with a non-matching message, or with the counter at budget, propagates
unchanged. Otherwise the counter is bumped and a reconnect is tried: on
success (which zeroes the counter through connect) the operation runs once
more, and if that retry fails its error drives one cold-start recovery
before being propagated; on reconnect failure the cold-start recovery runs
while the bumped counter is under budget, and the reconnect error is
propagated unless the post-recovery retry succeeds. -/
def withAutoReconnect {T : Type} (env : RetryEnv T) (attempts0 : Nat) : RetryResult T :=
  match env.opResults 0 with
  | Except.ok v =>
      ⟨Except.ok v, 0, preCheckEvents env ++ [RunEvent.opCall]⟩
  | Except.error msg =>
      if isConnectionError msg = true ∧ preCheckAttempts env attempts0 < maxReconnectAttempts then
        if env.reconnectOk then
          match env.opResults 1 with
          | Except.ok v =>
              ⟨Except.ok v, 0,
               preCheckEvents env ++ [RunEvent.opCall, RunEvent.reconnectCall, RunEvent.opCall]⟩
          | Except.error m2 =>
              if env.coldStartOk then
                match env.opResults 2 with
                | Except.ok v =>
                    ⟨Except.ok v, 0,
                     preCheckEvents env ++ [RunEvent.opCall, RunEvent.reconnectCall,
                       RunEvent.opCall, RunEvent.coldStartCall, RunEvent.opCall]⟩
                | Except.error _ =>
                    ⟨Except.error m2, 0,
                     preCheckEvents env ++ [RunEvent.opCall, RunEvent.reconnectCall,
                       RunEvent.opCall, RunEvent.coldStartCall, RunEvent.opCall]⟩
              else
                ⟨Except.error m2, 0,
                 preCheckEvents env ++ [RunEvent.opCall, RunEvent.reconnectCall,
                   RunEvent.opCall, RunEvent.coldStartCall]⟩
        else
          if preCheckAttempts env attempts0 + 1 < maxReconnectAttempts ∧ env.coldStartOk then
            match env.opResults 1 with
            | Except.ok v =>
                ⟨Except.ok v, 0,
                 preCheckEvents env ++ [RunEvent.opCall, RunEvent.reconnectCall,
                   RunEvent.coldStartCall, RunEvent.opCall]⟩
            | Except.error _ =>
                ⟨Except.error env.reconnectErrMsg, 0,
                 preCheckEvents env ++ [RunEvent.opCall, RunEvent.reconnectCall,
                   RunEvent.coldStartCall, RunEvent.opCall]⟩
          else if preCheckAttempts env attempts0 + 1 < maxReconnectAttempts then
            ⟨Except.error env.reconnectErrMsg, preCheckAttempts env attempts0 + 1,
             preCheckEvents env ++ [RunEvent.opCall, RunEvent.reconnectCall,
               RunEvent.coldStartCall]⟩
          else
            ⟨Except.error env.reconnectErrMsg, preCheckAttempts env attempts0 + 1,
             preCheckEvents env ++ [RunEvent.opCall, RunEvent.reconnectCall]⟩
      else
        ⟨Except.error msg, preCheckAttempts env attempts0,
         preCheckEvents env ++ [RunEvent.opCall]⟩

/-! ## comet_ask prompt validation (index.ts) -/

/-- The stages of the comet_ask handler after validation, as markers. -/
inductive AskEffect
  | connCheck
  | normalizeAndTransform
  | submit
deriving DecidableEq, Repr

/-- The comet_ask handler outcome the validation claim speaks about: an
early error text, or the effect sequence the valid branch proceeds with. -/
structure AskOutcome where
  errorText : Option String
  effects : List AskEffect
deriving DecidableEq, Repr

/-- Embeds the validation prefix of the comet_ask tool handler: a missing,
empty or whitespace-only prompt returns the error text before the
connection pre-check, the normalization and transformation of the prompt,
and the sendPrompt submission, which are represented as effect markers in
handler order. -/
def cometAskHandler (prompt : Option String) : AskOutcome :=
  let invalid :=
    match prompt with
    | none => true
    | some p => p == "" || (strTrim p).length == 0
  if invalid then ⟨some "Error: prompt cannot be empty", []⟩
  else ⟨none, [AskEffect.connCheck, AskEffect.normalizeAndTransform, AskEffect.submit]⟩

/-! ## Concrete instances used by witnesses and counterexamples -/

/-- Page signals of a finished task: the steps-completed marker is present,
no working signals, and the extraction strategies produced a long final
answer. -/
def sigC1 : PageSignals :=
  ⟨false, false, false, false, true, false, false, false, true, false,
   "The agent finished the task and produced this final answer text for the user."⟩

/-- Page signals whose extracted text is short: same markers, but the
candidate text is only 17 characters long. -/
def sigC8 : PageSignals :=
  ⟨false, false, false, false, true, false, false, false, true, false,
   "The answer is 42."⟩

/-- One external shop tab, as listed by the transport. -/
def tgtShop : Target := ⟨"B", "page", "Shop", "https://shop.example/item"⟩

/-- The registry entry a refresh at time 7 creates for tgtShop. -/
def ctxShop : TabContext :=
  ⟨"B", "https://shop.example/item", "Shop", Purpose.agentBrowsing, "shop.example", 7, none, none⟩

/-- A tracked tab annotated with purpose reference while on a.example. -/
def ctxC6 : TabContext :=
  ⟨"A", "https://a.example/x", "Old", Purpose.reference, "a.example", 0, none, none⟩

/-- The same tab after being reused to navigate to b.example. -/
def tgtC6 : Target := ⟨"A", "page", "New", "https://b.example/y"⟩

/-- A health state with a live client and a stale, false cache entry
written at time 0 — the state right after the first connect. -/
def hsC7 : HealthState := ⟨true, 0, false⟩

/-- A tab on example.com, listed before the app tab. -/
def tgtC9A : Target := ⟨"A", "page", "Example", "https://example.com/x"⟩

/-- A tab on app.example.com, listed after the example.com tab. -/
def tgtC9B : Target := ⟨"B", "page", "App", "https://app.example.com/y"⟩

/-- A retry environment whose operation always fails with a message that
matches no transient signature. -/
def envC4 : RetryEnv Nat :=
  ⟨fun _ => Except.error "plain failure", true, true,
   "No suitable tab found for reconnection", true⟩

/-- A retry environment whose operation fails once with a transient
message and succeeds from the second invocation on. -/
def envC5 : RetryEnv Nat :=
  ⟨fun i => if i = 0 then Except.error "WebSocket is CLOSED" else Except.ok 42, true, true,
   "No suitable tab found for reconnection", true⟩

/-! ## Helper lemmas -/

theorem isPrefixOf_self_true (l : List Char) : l.isPrefixOf l = true := by
  induction l with
  | nil => rfl
  | cons a t ih => simp [List.isPrefixOf, ih]

theorem hasSubList_self (l : List Char) : hasSubList l l = true := by
  cases l with
  | nil => rfl
  | cons a t => simp [hasSubList, isPrefixOf_self_true]

theorem strHasSub_self (s : String) : strHasSub s s = true :=
  hasSubList_self s.toList

theorem domainMatch_self (s : String) : domainMatch s s = true := by
  simp [domainMatch, strHasSub_self]

theorem find?_isSome_of_mem {α : Type} {p : α → Bool} {l : List α} {a : α}
    (ha : a ∈ l) (hp : p a = true) : (l.find? p).isSome = true := by
  rw [List.find?_isSome]
  exact ⟨a, ha, hp⟩

theorem pollResponse_completed_of_long (s : PageSignals)
    (h : 50 ≤ (pollResponse s).length) :
    computeStatus s = AgentStatusKind.completed := by
  by_cases hc : computeStatus s = AgentStatusKind.completed
  · exact hc
  · exfalso
    have he : pollResponse s = "" := by
      unfold pollResponse
      rw [if_neg hc]
    rw [he] at h
    exact absurd h (by decide)

/-- Claim C1: in any poll sequence where the extracted sanitized response
text is identical and at least 50 characters long on two consecutive
polls and no active stop affordance is present, getAgentStatus returns
status completed on the second of those polls, whatever the phrase-marker
signals are. The proof rests on the fact that a non-empty extracted
response already forces the status chain to completed. -/
theorem getAgentStatus_identical_polls_completed (st : StabilityState) (s1 s2 : PageSignals)
    (hresp : (getAgentStatus st s1).1.response = (getAgentStatus (getAgentStatus st s1).2 s2).1.response)
    (hlen : 50 ≤ (getAgentStatus (getAgentStatus st s1).2 s2).1.response.length)
    (hstop1 : (getAgentStatus st s1).1.hasStopButton = false)
    (hstop2 : (getAgentStatus (getAgentStatus st s1).2 s2).1.hasStopButton = false) :
    (getAgentStatus (getAgentStatus st s1).2 s2).1.status = AgentStatusKind.completed := by
  have hlen2 : 50 ≤ (pollResponse s2).length := hlen
  have hc := pollResponse_completed_of_long s2 hlen2
  show (if stabilityOverride (getAgentStatus st s1).2 s2 then AgentStatusKind.completed
        else computeStatus s2) = AgentStatusKind.completed
  split
  · rfl
  · exact hc

/-- Claim C1 witness: two consecutive polls of the same finished page,
starting from the reset stability state, end with status completed. -/
theorem getAgentStatus_identical_polls_completed_witness :
    (getAgentStatus (getAgentStatus initialStability sigC1).2 sigC1).1.status =
      AgentStatusKind.completed :=
  getAgentStatus_identical_polls_completed initialStability sigC1 sigC1 rfl (by decide) rfl rfl

/-- Claim C8: when the extracted response is shorter than the 50-character
substantiality floor, the stability tracker never reports the response
stable and the stability override never promotes the status, whatever the
stability state accumulated by earlier polls was. -/
theorem stability_floor_never_promotes (st : StabilityState) (s : PageSignals)
    (hlen : (pollResponse s).length < 50) :
    (getAgentStatus st s).1.isStable = false ∧
    (getAgentStatus st s).1.status = computeStatus s := by
  have hstab : (isResponseStable st (pollResponse s)).1 = false := by
    unfold isResponseStable
    rw [if_neg]
    intro hcontra
    exact absurd hcontra.2 (by omega)
  have hov : stabilityOverride st s = false := by
    simp [stabilityOverride, hstab]
  constructor
  · exact hstab
  · show (if stabilityOverride st s then AgentStatusKind.completed
          else computeStatus s) = computeStatus s
    rw [hov]
    simp

/-- Claim C8 witness: a poll extracting the 17-character text The answer
is 42. is not reported stable and keeps the status the marker rules
computed. -/
theorem stability_floor_never_promotes_witness :
    (getAgentStatus initialStability sigC8).1.isStable = false ∧
    (getAgentStatus initialStability sigC8).1.status = computeStatus sigC8 :=
  stability_floor_never_promotes initialStability sigC8 (by decide)

/-- Claim C6: a tracked tab whose domain changed between refreshes keeps
its stored purpose, although the specification asks for the purpose to be
re-inferred. The registry entry for tab A moves from a.example to
b.example, the domain field is updated, yet the purpose stays reference
while inferPurpose would return agentBrowsing: the source overwrites the
domain field before comparing it, so the re-inference never fires. -/
theorem refresh_domain_change_keeps_purpose :
    refreshTabRegistry 10 [tgtC6] [ctxC6] =
      [⟨"A", "https://b.example/y", "New", Purpose.reference, "b.example", 10, none, none⟩] ∧
    inferPurpose "https://b.example/y" "New" = Purpose.agentBrowsing := by
  decide

/-- Claim C10: a comet_ask invocation whose prompt is missing, empty or
whitespace-only returns the error text and performs none of the later
handler stages (connection check, prompt transformation, submission). -/
theorem cometAsk_rejects_blank_prompt (prompt : Option String)
    (h : prompt = none ∨ ∃ p, prompt = some p ∧ strTrim p = "") :
    (cometAskHandler prompt).errorText = some "Error: prompt cannot be empty" ∧
    (cometAskHandler prompt).effects = [] := by
  cases h with
  | inl hn => subst hn; exact ⟨rfl, rfl⟩
  | inr hp =>
    obtain ⟨p, rfl, htrim⟩ := hp
    have hlen : ((strTrim p).length == 0) = true := by
      rw [htrim]
      rfl
    unfold cometAskHandler
    rw [if_pos]
    · exact ⟨rfl, rfl⟩
    · simp [hlen]

/-- Claim C10 witness: a prompt of three spaces is rejected with the
error text and an empty effect list. -/
theorem cometAsk_rejects_blank_prompt_witness :
    (cometAskHandler (some "   ")).errorText = some "Error: prompt cannot be empty" ∧
    (cometAskHandler (some "   ")).effects = [] :=
  cometAsk_rejects_blank_prompt (some "   ") (Or.inr ⟨"   ", rfl, by decide⟩)

/-- Claim C3: when the pre-close check sees at most one external tab in
the refreshed registry, the comet_tabs close action returns an error
result and invokes no close operation on any tab. -/
theorem cometTabsClose_guard (now : Nat) (targets : List Target) (reg : List TabContext)
    (tabId domain : Option String) (closeOk : Bool)
    (hle : (refreshTabRegistry now targets reg).length ≤ 1) :
    (cometTabsClose now targets reg tabId domain closeOk).isError = true ∧
    (cometTabsClose now targets reg tabId domain closeOk).closed = [] := by
  unfold cometTabsClose
  rw [if_pos hle]
  exact ⟨rfl, rfl⟩

/-- Claim C3 witness: with a single external tab, a close request by tab
id is rejected and closes nothing. -/
theorem cometTabsClose_guard_witness :
    (cometTabsClose 7 [tgtShop] [] (some "B") none true).isError = true ∧
    (cometTabsClose 7 [tgtShop] [] (some "B") none true).closed = [] :=
  cometTabsClose_guard 7 [tgtShop] [] (some "B") none true (by decide)

/-- Claim C4: an operation under withAutoReconnect that fails with a
message matching none of the transient-connection signatures propagates
its error unchanged; the attempt counter is untouched and the trace shows
exactly one operation call, with neither a reconnect nor a cold start.
The hypothesis on preCheckOk pins the cache-backed pre-operation health
check to its passing branch, which performs no reconnect of its own. -/
theorem withAutoReconnect_nontransient {T : Type} (env : RetryEnv T) (a0 : Nat) (msg : String)
    (hpre : env.preCheckOk = true)
    (hop : env.opResults 0 = Except.error msg)
    (herr : isConnectionError msg = false) :
    withAutoReconnect env a0 = ⟨Except.error msg, a0, [RunEvent.opCall]⟩ := by
  simp [withAutoReconnect, preCheckAttempts, preCheckEvents, hpre, hop, herr]

/-- Claim C4 witness: a run failing with the message plain failure
returns that error, keeps the counter at 3, and only invoked the
operation once. -/
theorem withAutoReconnect_nontransient_witness :
    withAutoReconnect envC4 3 = ⟨Except.error "plain failure", 3, [RunEvent.opCall]⟩ :=
  withAutoReconnect_nontransient envC4 3 "plain failure" rfl rfl (by decide)

/-- Claim C5: an operation under withAutoReconnect that first fails with
a transient message while the counter is under the budget of 10, and
whose retry after a successful reconnect succeeds, returns the success
value with the attempt counter at 0 (the reconnect ends in connect, which
zeroes the counter). -/
theorem withAutoReconnect_transient_retry {T : Type} (env : RetryEnv T) (a0 : Nat)
    (msg : String) (v : T)
    (hpre : env.preCheckOk = true)
    (hop0 : env.opResults 0 = Except.error msg)
    (herr : isConnectionError msg = true)
    (hbudget : a0 < maxReconnectAttempts)
    (hrec : env.reconnectOk = true)
    (hop1 : env.opResults 1 = Except.ok v) :
    withAutoReconnect env a0 =
      ⟨Except.ok v, 0, [RunEvent.opCall, RunEvent.reconnectCall, RunEvent.opCall]⟩ := by
  simp [withAutoReconnect, preCheckAttempts, preCheckEvents, hpre, hop0, herr, hbudget, hrec, hop1]

/-- Claim C5 witness: a first failure with a WebSocket closed message
followed by a successful retry returns 42 with the counter reset from 3
to 0. -/
theorem withAutoReconnect_transient_retry_witness :
    withAutoReconnect envC5 3 =
      ⟨Except.ok 42, 0, [RunEvent.opCall, RunEvent.reconnectCall, RunEvent.opCall]⟩ :=
  withAutoReconnect_transient_retry envC5 3 "WebSocket is CLOSED" 42 rfl rfl (by decide)
    (by decide) rfl rfl

theorem isConnectionHealthy_hit (now : Nat) (p : Bool) (st : HealthState)
    (h : now - st.lastHealthCheck < HEALTH_CHECK_CACHE_MS) :
    isConnectionHealthy now p st = ⟨st.healthCheckCache, st, 0⟩ := by
  unfold isConnectionHealthy
  rw [if_pos h]

theorem isConnectionHealthy_miss (now : Nat) (p : Bool) (st : HealthState)
    (h : ¬ now - st.lastHealthCheck < HEALTH_CHECK_CACHE_MS) :
    (isConnectionHealthy now p st).state.lastHealthCheck = now ∧
    (isConnectionHealthy now p st).state.healthCheckCache = (isConnectionHealthy now p st).value ∧
    (isConnectionHealthy now p st).probes ≤ 1 := by
  unfold isConnectionHealthy
  rw [if_neg h]
  split
  · exact ⟨rfl, rfl, Nat.zero_le 1⟩
  · split
    · exact ⟨rfl, rfl, Nat.le_refl 1⟩
    · exact ⟨rfl, rfl, Nat.le_refl 1⟩

theorem isConnectionHealthy_probes_le_one (now : Nat) (p : Bool) (st : HealthState) :
    (isConnectionHealthy now p st).probes ≤ 1 := by
  unfold isConnectionHealthy
  split
  · exact Nat.zero_le 1
  · split
    · exact Nat.zero_le 1
    · split
      · exact Nat.le_refl 1
      · exact Nat.le_refl 1

/-- Claim C7 counterexample: two health checks 2 milliseconds apart, at
times 1999 and 2001 over a cache written at time 0, where the second call
issues a remote probe: the first call hits the cache without refreshing
its timestamp, so the window is measured from the old write, not from the
first call. This falsifies the claim that the second of two calls less
than 2 seconds apart always answers from the cache without a remote
call. -/
theorem healthCheck_second_call_probes :
    2001 - 1999 < HEALTH_CHECK_CACHE_MS ∧
    (isConnectionHealthy 1999 true hsC7).probes = 0 ∧
    (isConnectionHealthy 2001 true (isConnectionHealthy 1999 true hsC7).state).probes = 1 := by
  decide

/-- Claim C7 amended: two health checks less than the 2-second TTL apart
issue at most one remote probe between them; and whenever the first call
misses the cache (so it refreshes the cache timestamp), the second call
issues no probe and returns the boolean the first call cached. -/
theorem healthCheck_ttl_amended (st : HealthState) (t1 t2 : Nat) (p1 p2 : Bool)
    (h12 : t1 ≤ t2) (hwin : t2 - t1 < HEALTH_CHECK_CACHE_MS) :
    (isConnectionHealthy t1 p1 st).probes +
      (isConnectionHealthy t2 p2 (isConnectionHealthy t1 p1 st).state).probes ≤ 1 ∧
    (HEALTH_CHECK_CACHE_MS ≤ t1 - st.lastHealthCheck →
      (isConnectionHealthy t2 p2 (isConnectionHealthy t1 p1 st).state).probes = 0 ∧
      (isConnectionHealthy t2 p2 (isConnectionHealthy t1 p1 st).state).value =
        (isConnectionHealthy t1 p1 st).value) := by
  by_cases hfirst : t1 - st.lastHealthCheck < HEALTH_CHECK_CACHE_MS
  · have e1 : isConnectionHealthy t1 p1 st = ⟨st.healthCheckCache, st, 0⟩ :=
      isConnectionHealthy_hit t1 p1 st hfirst
    constructor
    · rw [e1]
      show 0 + (isConnectionHealthy t2 p2 st).probes ≤ 1
      have h2 := isConnectionHealthy_probes_le_one t2 p2 st
      omega
    · intro hmiss
      exact absurd hfirst (by omega)
  · have hm := isConnectionHealthy_miss t1 p1 st hfirst
    have e2 : isConnectionHealthy t2 p2 (isConnectionHealthy t1 p1 st).state =
        ⟨(isConnectionHealthy t1 p1 st).state.healthCheckCache,
         (isConnectionHealthy t1 p1 st).state, 0⟩ := by
      apply isConnectionHealthy_hit
      rw [hm.1]
      omega
    constructor
    · rw [e2]
      show (isConnectionHealthy t1 p1 st).probes + 0 ≤ 1
      have h1 := hm.2.2
      omega
    · intro _
      rw [e2]
      exact ⟨rfl, hm.2.1⟩

/-- Claim C7 amended witness: calls at times 5000 and 5001 over a cache
written at time 0 probe exactly once, and the second call answers from
the cache with the value the first call stored. -/
theorem healthCheck_ttl_amended_witness :
    (isConnectionHealthy 5000 true hsC7).probes +
      (isConnectionHealthy 5001 true (isConnectionHealthy 5000 true hsC7).state).probes ≤ 1 ∧
    (HEALTH_CHECK_CACHE_MS ≤ 5000 - hsC7.lastHealthCheck →
      (isConnectionHealthy 5001 true (isConnectionHealthy 5000 true hsC7).state).probes = 0 ∧
      (isConnectionHealthy 5001 true (isConnectionHealthy 5000 true hsC7).state).value =
        (isConnectionHealthy 5000 true hsC7).value) :=
  healthCheck_ttl_amended hsC7 5000 5001 true true (by decide) (by decide)

theorem refreshEntry_url (now : Nat) (target : Target) (existing : TabContext) :
    (refreshEntry now target existing).url = target.url := by
  unfold refreshEntry
  split <;> rfl

theorem refreshStep_inv (now : Nat) (target : Target) (acc : List TabContext × List String)
    (h : regIdsInv acc) : regIdsInv (refreshStep now acc target) := by
  unfold refreshStep
  split
  case isTrue hguard =>
    split
    case h_1 existing hfind =>
      intro t ht hid
      rw [List.mem_map] at ht
      obtain ⟨t0, ht0, rfl⟩ := ht
      by_cases hidEq : (t0.id == target.id) = true
      · rw [if_pos hidEq]
        rw [refreshEntry_url]
        exact hguard.2
      · rw [if_neg hidEq] at hid ⊢
        rw [List.mem_append] at hid
        cases hid with
        | inl hin => exact h t0 ht0 hin
        | inr hin =>
          rw [List.mem_singleton] at hin
          exact absurd (beq_iff_eq.mpr hin) hidEq
    case h_2 hfind =>
      intro t ht hid
      rw [List.mem_append] at ht
      cases ht with
      | inl hmem =>
        rw [List.mem_append] at hid
        cases hid with
        | inl hin => exact h t hmem hin
        | inr hin =>
          rw [List.mem_singleton] at hin
          have hnone := List.find?_eq_none.mp hfind t hmem
          exact absurd (beq_iff_eq.mpr hin) hnone
      | inr hmem =>
        rw [List.mem_singleton] at hmem
        subst hmem
        show isInternalTab (newEntry now target).url = false
        exact hguard.2
  case isFalse hguard => exact h

theorem foldl_refreshStep_inv (now : Nat) (targets : List Target)
    (acc : List TabContext × List String) (h : regIdsInv acc) :
    regIdsInv (targets.foldl (refreshStep now) acc) := by
  induction targets generalizing acc with
  | nil => exact h
  | cons x xs ih => exact ih (refreshStep now acc x) (refreshStep_inv now x acc h)

theorem refresh_no_internal (now : Nat) (targets : List Target) (reg : List TabContext)
    (t : TabContext) (ht : t ∈ refreshTabRegistry now targets reg) :
    isInternalTab t.url = false := by
  unfold refreshTabRegistry at ht
  rw [List.mem_filter] at ht
  have hbase : regIdsInv (reg, ([] : List String)) := by
    intro t0 _ hid
    exact absurd hid (List.not_mem_nil t0.id)
  have hinv := foldl_refreshStep_inv now targets (reg, []) hbase
  exact hinv t ht.1 (of_decide_eq_true ht.2)

/-- Claim C2: after any non-empty sequence of refreshTabRegistry calls,
every entry of the tab registry has a URL that is not classified
internal, whatever registry the sequence started from. -/
theorem tabRegistry_never_internal (seq : List (Nat × List Target)) (reg : List TabContext)
    (hne : seq ≠ []) (t : TabContext) (ht : t ∈ refreshSeq seq reg) :
    isInternalTab t.url = false := by
  induction seq generalizing reg with
  | nil => exact absurd rfl hne
  | cons step rest ih =>
    cases rest with
    | nil => exact refresh_no_internal step.1 step.2 reg t ht
    | cons step2 rest2 =>
      exact ih (refreshTabRegistry step.1 step.2 reg) (List.cons_ne_nil step2 rest2) ht

/-- Claim C2 witness: the entry registered for the shop.example tab by a
single refresh is not internal. -/
theorem tabRegistry_never_internal_witness :
    isInternalTab ctxShop.url = false :=
  tabRegistry_never_internal [(7, [tgtShop])] [] (by decide) ctxShop (by decide)

/-- Claim C9 counterexample: after a refresh registers example.com (tab
A) and app.example.com (tab B), querying findTabByDomain with the exact
domain app.example.com of tab B returns tab A, because the scan takes the
first entry whose domain is in substring relation with the query and the
shorter domain of A is contained in the query. This falsifies the claim
that the returned id equals the registered id. -/
theorem findTabByDomain_first_match_wrong_id :
    ((refreshTabRegistry 0 [tgtC9A, tgtC9B] []).any
      (fun t => t.id == "B" && t.domain == "app.example.com")) = true ∧
    (findTabByDomain 0 [tgtC9A, tgtC9B] [] "app.example.com").map TabContext.id = some "A" := by
  decide

/-- Claim C9 amended: querying findTabByDomain with the exact domain of
a tab the refresh registered always returns some tab; and the returned id
equals the registered id under the proviso that every registry entry
whose domain is substring-related to the query carries that id — in
general the scan returns the first substring-related entry in registry
order, which may be a different tab. -/
theorem findTabByDomain_registered (now : Nat) (targets : List Target) (reg : List TabContext)
    (c : TabContext) (hc : c ∈ refreshTabRegistry now targets reg) :
    (findTabByDomain now targets reg c.domain).isSome = true ∧
    ((∀ t, t ∈ refreshTabRegistry now targets reg →
        domainMatch t.domain c.domain = true → t.id = c.id) →
      ∃ r, findTabByDomain now targets reg c.domain = some r ∧ r.id = c.id) := by
  have hself : domainMatch c.domain c.domain = true := domainMatch_self c.domain
  have hsome : (scanTabsByDomain (refreshTabRegistry now targets reg) c.domain).isSome = true :=
    find?_isSome_of_mem hc hself
  constructor
  · exact hsome
  · intro huniq
    cases heq : scanTabsByDomain (refreshTabRegistry now targets reg) c.domain with
    | none =>
      rw [heq] at hsome
      exact absurd hsome (by decide)
    | some r =>
      have heqf : (refreshTabRegistry now targets reg).find?
          (fun tab => domainMatch tab.domain c.domain) = some r := heq
      have hp := @List.find?_some TabContext
        (fun tab => domainMatch tab.domain c.domain) r (refreshTabRegistry now targets reg) heqf
      refine ⟨r, heq, ?_⟩
      exact huniq r (List.mem_of_find?_eq_some heqf) hp

/-- Claim C9 amended witness: with shop.example as the only registered
tab, the query for its exact domain returns a tab. -/
theorem findTabByDomain_registered_witness :
    (findTabByDomain 7 [tgtShop] [] ctxShop.domain).isSome = true :=
  (findTabByDomain_registered 7 [tgtShop] [] ctxShop (by decide)).1
